import Mathlib

/-!
Shallow embedding of the `regression` package (regression.go, crosses.go).

Go `float64` values are modelled as `ℚ` (exact arithmetic; every numeric
operation the code performs is one of `+ - * /` and squaring). Go slices are
`List ℚ`, the `map[int]float64` coefficient table is an association list built
in key order, and the gonum `mat.QR` factorization is an external collaborator
modelled as a function parameter `fact` producing the `Q` and `R` matrices;
the back-substitution loop of `Run` is the repository's own code and is
embedded faithfully. Division by zero in `ℚ` stands in for the IEEE `Inf/NaN`
the Go code would produce (no claim depends on those values).
-/

/-- Matrices handed to and received from the external QR collaborator. -/
abbrev QMat := List (List ℚ)

/-- The three error sentinels of regression.go (lines 10-17). -/
inductive Err where
  | ErrNotEnoughData
  | ErrTooManyVars
  | ErrRegressionRun
deriving DecidableEq, Repr

/-- DataPoint (regression.go:31). `Error` is the residual field. -/
structure DataPoint where
  Observed : ℚ
  Variables : List ℚ
  Crosses : List ℚ
  Predicted : ℚ
  Error : ℚ
deriving DecidableEq, Repr

/-- featureCross (crosses.go): anything with a Calculate method. -/
structure featureCross where
  Calculate : List ℚ → List ℚ

/-- Regression (regression.go:20). `coeff` models the Go `map[int]float64`
as an association list (the code only ever stores the keys `0..n-1`, in order). -/
structure Regression where
  Data : List DataPoint
  coeff : List (ℤ × ℚ)
  R2 : ℚ
  VarianceObserved : ℚ
  VariancePredicted : ℚ
  initialised : Bool
  crosses : List featureCross
  Ready : Bool

/-- The Go zero value `Regression{}`. -/
def Regression.empty : Regression :=
  { Data := [], coeff := [], R2 := 0, VarianceObserved := 0,
    VariancePredicted := 0, initialised := false, crosses := [], Ready := false }

/-- Zero value of DataPoint, used to model the (unreachable) out-of-bounds
read `r.Data[0]` on an empty store. -/
def zeroPoint : DataPoint := ⟨0, [], [], 0, 0⟩

/-- Lookup in the modelled `map[int]float64`: a missing key yields the zero
value, as in Go. -/
def mapFind (m : List (ℤ × ℚ)) (i : ℤ) : ℚ :=
  ((m.find? (fun p => p.1 == i)).map Prod.snd).getD 0

/-- Coeff (regression.go:160): 0 when no fit has happened, otherwise a
default-0 map lookup. -/
def Coeff (r : Regression) (i : ℤ) : ℚ :=
  if r.coeff.length = 0 then 0 else mapFind r.coeff i

/-- GetCoeffs (regression.go:168): nil when unfit, else the entries at keys
`0..len-1`. -/
def GetCoeffs (r : Regression) : List ℚ :=
  if r.coeff.length = 0 then []
  else (List.range r.coeff.length).map (fun i => mapFind r.coeff (i : ℤ))

/-- The loop of Predict (regression.go:50-52): each registered cross's
Calculate is applied to the ACCUMULATED vector `vars` (the Go code reassigns
`vars = append(vars, cross.Calculate(vars)...)`). -/
def extendCode (crosses : List featureCross) (vars : List ℚ) : List ℚ :=
  crosses.foldl (fun vs c => vs ++ c.Calculate vs) vars

/-- Predict (regression.go:44): returns the value and the optional error. -/
def Predict (r : Regression) (vars : List ℚ) : ℚ × Option Err :=
  if !r.Ready then (0, some Err.ErrRegressionRun)
  else
    let vs := extendCode r.crosses vars
    (vs.enum.foldl (fun p jv => p + Coeff r ((jv.1 : ℤ) + 1) * jv.2) (Coeff r 0), none)

/-- AddCross (regression.go:62). -/
def AddCross (r : Regression) (c : featureCross) : Regression :=
  { r with crosses := r.crosses ++ [c] }

/-- Train (regression.go:67). -/
def Train (r : Regression) (d : List DataPoint) : Regression :=
  let r1 := { r with Data := r.Data ++ d }
  if r1.Data.length > 2 then { r1 with initialised := true } else r1

/-- applyCrosses (regression.go:76). The Go loop `for _, p := range r.Data`
ranges BY VALUE: each iteration assigns the cross output to the field of a
local copy `p` of the stored DataPoint, and the copies are discarded, so the
store itself is returned unchanged. (Within one copy the inner loop overwrites
`p.Crosses` with each successive cross's output.) -/
def applyCrosses (r : Regression) : Regression :=
  if r.crosses.length = 0 then r
  else
    let _ := r.Data.map (fun p =>
      if p.Crosses.length > 0 then p
      else r.crosses.foldl (fun q c => { q with Crosses := c.Calculate q.Variables }) p)
    r

/-- numOfvars (regression.go:104): variable count plus stored-cross count of
the FIRST observation. -/
def numVars (r : Regression) : ℕ :=
  (r.Data.headD zeroPoint).Variables.length + (r.Data.headD zeroPoint).Crosses.length

/-- The loop `for j, val := range xs: row.Set(start+j, val)`. -/
def setFrom : List ℚ → ℕ → List ℚ → List ℚ
  | row, _, [] => row
  | row, start, v :: vs => setFrom (row.set start v) (start + 1) vs

/-- One row of the design matrix (regression.go:116-122): column 0 is the
constant 1, the raw variables are written starting at column 1, and the stored
crosses are written starting at column `len(Variables)` (this is the code's
index expression `len(r.Data[i].Variables)+j`). -/
def buildRow (width : ℕ) (p : DataPoint) : List ℚ :=
  let row := (List.replicate width (0 : ℚ)).set 0 1
  let row := setFrom row 1 p.Variables
  setFrom row p.Variables.length p.Crosses

/-- The design matrix of regression.go:112-123. -/
def designMatrix (r : Regression) : QMat :=
  r.Data.map (buildRow (numVars r + 1))

/-- The target vector `observed` of regression.go:111-115. -/
def observedVec (r : Regression) : List ℚ :=
  r.Data.map (·.Observed)

/-- Matrix entry access, default 0 (the code never reads out of range). -/
def matAt (m : QMat) (i j : ℕ) : ℚ := (m.getD i []).getD j 0

/-- Dense transpose (gonum's `q.T()`). -/
def matTranspose (m : QMat) : QMat :=
  (List.range (m.headD []).length).map (fun j => m.map (fun row => row.getD j 0))

/-- Dense product (gonum's `qty.Mul(qtr, observed)`). -/
def matMul (a b : QMat) : QMat :=
  a.map (fun row =>
    (List.range (b.headD []).length).map (fun j =>
      row.enum.foldl (fun acc p => acc + p.2 * matAt b p.1 j) 0))

/-- Back substitution (regression.go:138-145): for i from n-1 down to 0,
`c[i] = (qty[i] - sum of c[j]*R[i][j] for j > i) / R[i][i]`. -/
def backSub (n : ℕ) (qty reg : QMat) : List ℚ :=
  (List.range n).reverse.foldl
    (fun c i =>
      let s := ((List.range n).drop (i + 1)).foldl
        (fun acc j => acc - c.getD j 0 * matAt reg i j) (matAt qty i 0)
      c.set i (s / matAt reg i i))
    (List.replicate n 0)

/-- The solver block of Run (regression.go:126-145): factorize through the
external collaborator `fact`, form `Qᵀ·y`, back-substitute against `R`. -/
def solveQR (fact : QMat → QMat × QMat) (X : QMat) (y : List ℚ) (n : ℕ) : List ℚ :=
  let q := (fact X).1
  let reg := (fact X).2
  let qty := matMul (matTranspose q) (y.map (fun v => [v]))
  backSub n qty reg

/-- regression.go:148-151: the coefficient table gets exactly the keys
`0..n-1`, in order. -/
def coeffOf (c : List ℚ) : List (ℤ × ℚ) :=
  c.enum.map (fun p => ((p.1 : ℤ), p.2))

/-- calcPredicted (regression.go:179). -/
def calcPredicted (r : Regression) : Regression :=
  { r with Data := r.Data.map (fun p =>
      let pr := (Predict r p.Variables).1
      { p with Predicted := pr, Error := pr - p.Observed }) }

/-- calcVariance (regression.go:187). -/
def calcVariance (r : Regression) : Regression :=
  let observations := r.Data.length
  let obtotal := r.Data.foldl (fun acc p => acc + p.Observed) 0
  let prtotal := r.Data.foldl (fun acc p => acc + p.Predicted) 0
  let obaverage := obtotal / (observations : ℚ)
  let praverage := prtotal / (observations : ℚ)
  let obvar := r.Data.foldl (fun acc p => acc + (p.Observed - obaverage) ^ 2) 0
  let prvar := r.Data.foldl (fun acc p => acc + (p.Predicted - praverage) ^ 2) 0
  { r with VarianceObserved := obvar / (observations : ℚ),
           VariancePredicted := prvar / (observations : ℚ) }

/-- calcR2 (regression.go:205). -/
def calcR2 (r : Regression) : Regression :=
  { r with R2 := r.VariancePredicted / r.VarianceObserved }

/-- Run (regression.go:94). `fact` is the external gonum QR factorization. -/
def Run (fact : QMat → QMat × QMat) (r : Regression) : Regression × Option Err :=
  if !r.initialised then (r, some Err.ErrNotEnoughData)
  else
    let r2 := { applyCrosses r with Ready := true }
    if r2.Data.length < numVars r2 + 1 then (r2, some Err.ErrTooManyVars)
    else
      let c := solveQR fact (designMatrix r2) (observedVec r2) (numVars r2 + 1)
      let r3 := { r2 with coeff := coeffOf c }
      (calcR2 (calcVariance (calcPredicted r3)), none)

/-- The loop of perverseMakeDataPoints (regression.go:239-244): collect the
row's entries in order, skipping position `obsIndex`. -/
def collectOthers (obsIndex : ℕ) : ℕ → List ℚ → List ℚ
  | _, [] => []
  | i, c :: rest =>
    if i = obsIndex then collectOthers obsIndex (i + 1) rest
    else c :: collectOthers obsIndex (i + 1) rest

/-- A DataPoint as constructed by MakeDataPoints. -/
def mkDP (o : ℚ) (vs : List ℚ) : DataPoint := ⟨o, vs, [], 0, 0⟩

/-- perverseMakeDataPoints (regression.go:234). -/
def perverseMakeDataPoints (a : QMat) (obsIndex : ℕ) : List DataPoint :=
  a.map (fun r => mkDP (r.getD obsIndex 0) (collectOthers obsIndex 0 r))

/-- MakeDataPoints (regression.go:213). -/
def MakeDataPoints (a : QMat) (obsIndex : ℕ) : List DataPoint :=
  if obsIndex ≠ 0 ∧ obsIndex ≠ (a.headD []).length - 1 then
    perverseMakeDataPoints a obsIndex
  else if obsIndex = 0 then
    a.map (fun r => mkDP (r.headD 0) (r.drop 1))
  else
    let last := (a.headD []).length - 1
    a.map (fun r => mkDP (r.getD last 0) (r.take last))

/-- States reachable through the public API from the zero value. -/
inductive Reachable : Regression → Prop where
  | empty : Reachable Regression.empty
  | train (r : Regression) (d : List DataPoint) : Reachable r → Reachable (Train r d)
  | cross (r : Regression) (c : featureCross) : Reachable r → Reachable (AddCross r c)
  | run (r : Regression) (fact : QMat → QMat × QMat) :
      Reachable r → Reachable (Run fact r).1

/-- Modelled from the spec (section 4.7): the population variance, the average
of squared deviations from the mean. -/
def popVariance (l : List ℚ) : ℚ :=
  ((l.map (fun x => (x - l.sum / (l.length : ℚ)) ^ 2)).sum) / (l.length : ℚ)

/-- Modelled from the spec (section 4.6): the extended feature vector the spec
describes, every registered cross's Calculate applied to the ORIGINAL input
vector, outputs appended in registration order. -/
def extendSpec (crosses : List featureCross) (vars : List ℚ) : List ℚ :=
  vars ++ (crosses.map (fun c => c.Calculate vars)).flatten

/-- Modelled from the spec (section 4.6): the prediction formula as the claim
states it, over `extendSpec`. -/
def predictClaim (r : Regression) (vars : List ℚ) : ℚ :=
  let vs := extendSpec r.crosses vars
  Coeff r 0 + (vs.enum.map (fun jv => Coeff r ((jv.1 : ℤ) + 1) * jv.2)).sum

/-- A concrete external factorization; claims quantify over `fact`, concrete
evaluations may use any instance. -/
def fact0 : QMat → QMat × QMat := fun _ => ([], [])

/-- A square feature cross, as produced by PowCross(0, 2). -/
def sqCross : featureCross := ⟨fun vs => [vs.headD 0 * vs.headD 0]⟩

/-- A feature cross summing the whole input vector (any featureCross
implementation may read every entry it is given). -/
def sumAll : featureCross := ⟨fun vs => [vs.foldl (· + ·) 0]⟩

/-- Concrete regressions and tables used by concrete evaluations below. -/
def rC1 : Regression :=
  AddCross (Train Regression.empty [mkDP 6 [2], mkDP 20 [4], mkDP 30 [5]]) sqCross

/-- Three one-variable observations with one registered arity-1 cross. -/
def rC2 : Regression :=
  AddCross (Train Regression.empty [mkDP 1 [2], mkDP 2 [4], mkDP 3 [5]]) sqCross

/-- Three observations with three variables each: Run passes the data floor
but trips the underdetermined check. -/
def rC3 : Regression := Train Regression.empty [mkDP 1 [1,2,3], mkDP 2 [1,2,3], mkDP 3 [1,2,3]]

/-- Four trained observations whose Crosses fields are pre-populated (Train
accepts DataPoints as given), so the cross columns of the design matrix are
actually written. -/
def rC4 : Regression :=
  Train Regression.empty
    [⟨5, [7], [9], 0, 0⟩, ⟨6, [8], [10], 0, 0⟩, ⟨7, [9], [11], 0, 0⟩, ⟨8, [10], [12], 0, 0⟩]

/-- Two observations with five variables each. -/
def rC5a : Regression := Train Regression.empty [mkDP 1 [1,2,3,4,5], mkDP 2 [1,2,3,4,5]]

/-- Three one-variable observations with three registered arity-1 crosses. -/
def rC5b : Regression :=
  AddCross (AddCross (AddCross
    (Train Regression.empty [mkDP 1 [1], mkDP 2 [2], mkDP 3 [3]]) sqCross) sqCross) sqCross

/-- A ready model with coefficients 0,0,0,1 and two registered crosses, the
second of which sums its whole input vector. -/
def rC6 : Regression :=
  { Data := [], coeff := coeffOf [0, 0, 0, 1], R2 := 0, VarianceObserved := 0,
    VariancePredicted := 0, initialised := true, crosses := [sqCross, sumAll], Ready := true }

/-- A ready model with no coefficients and no crosses. -/
def rW6 : Regression := { Regression.empty with Ready := true }

/-- A fittable three-observation store (used to instantiate coefficient-table
facts after a successful Run). -/
def rW62 : Regression := Train Regression.empty [mkDP 1 [3], mkDP 2 [6], mkDP 3 [9]]

/-- A fittable three-observation one-variable store. -/
def rW7 : Regression := Train Regression.empty [mkDP 1 [2], mkDP 2 [4], mkDP 3 [6]]

/-- Three zero observations. -/
def zp3 : List DataPoint := [zeroPoint, zeroPoint, zeroPoint]

/-- The store after training three zero observations. -/
def rW8 : Regression := Train Regression.empty zp3

/-- Three observations, three variables each, used for the underdetermined
witness. -/
def rW5 : Regression := Train Regression.empty [mkDP 0 [1,2,3], mkDP 0 [1,2,3], mkDP 0 [1,2,3]]

/-- A 2-row, 3-column table. -/
def aW9 : QMat := [[1, 2, 3], [4, 5, 6]]

theorem applyCrosses_eq (r : Regression) : applyCrosses r = r := by
  unfold applyCrosses
  split <;> rfl

theorem foldl_add {α : Type} (f : α → ℚ) :
    ∀ (l : List α) (a : ℚ), l.foldl (fun acc x => acc + f x) a = a + (l.map f).sum
  | [], a => by simp
  | x :: xs, a => by
    simp [foldl_add f xs (a + f x), add_assoc]

theorem calcPredicted_Data (r : Regression) :
    (calcPredicted r).Data = r.Data.map (fun p =>
      { p with Predicted := (Predict r p.Variables).1,
               Error := (Predict r p.Variables).1 - p.Observed }) := rfl

theorem run_not_init (fact : QMat → QMat × QMat) (r : Regression)
    (h : r.initialised = false) : Run fact r = (r, some Err.ErrNotEnoughData) := by
  simp [Run, h]

theorem run_too_many (fact : QMat → QMat × QMat) (r : Regression)
    (hi : r.initialised = true) (hn : r.Data.length < numVars r + 1) :
    Run fact r = ({ r with Ready := true }, some Err.ErrTooManyVars) := by
  unfold Run
  rw [applyCrosses_eq, if_neg (by simp [hi])]
  dsimp only
  split
  · rfl
  · next h => exact absurd hn h

theorem run_success_eq (fact : QMat → QMat × QMat) (r : Regression)
    (hi : r.initialised = true) (hn : ¬ r.Data.length < numVars r + 1) :
    Run fact r = (calcR2 (calcVariance (calcPredicted
      { r with Ready := true,
               coeff := coeffOf (solveQR fact (designMatrix r) (observedVec r) (numVars r + 1)) })), none) := by
  unfold Run
  rw [applyCrosses_eq, if_neg (by simp [hi])]
  dsimp only
  split
  · next h => exact absurd h hn
  · rfl

theorem run_snd_cases (fact : QMat → QMat × QMat) (r : Regression) :
    (Run fact r).2 = some Err.ErrNotEnoughData ↔ r.initialised = false := by
  cases hi : r.initialised
  · simp [run_not_init fact r hi]
  · by_cases hn : r.Data.length < numVars r + 1
    · simp [run_too_many fact r hi hn]
    · simp [run_success_eq fact r hi hn]

theorem run_fst_init (fact : QMat → QMat × QMat) (r : Regression) :
    (Run fact r).1.initialised = r.initialised := by
  cases hi : r.initialised
  · simp [run_not_init fact r hi, hi]
  · by_cases hn : r.Data.length < numVars r + 1
    · simp [run_too_many fact r hi hn, hi]
    · simp [run_success_eq fact r hi hn, calcR2, calcVariance, calcPredicted, hi]

theorem run_fst_data_length (fact : QMat → QMat × QMat) (r : Regression) :
    (Run fact r).1.Data.length = r.Data.length := by
  cases hi : r.initialised
  · simp [run_not_init fact r hi]
  · by_cases hn : r.Data.length < numVars r + 1
    · simp [run_too_many fact r hi hn]
    · simp [run_success_eq fact r hi hn, calcR2, calcVariance, calcPredicted]

theorem run_fst_ready (fact : QMat → QMat × QMat) (r : Regression)
    (h : (Run fact r).1.Ready = true) : r.Ready = true ∨ r.initialised = true := by
  cases hi : r.initialised
  · rw [run_not_init fact r hi] at h
    exact Or.inl h
  · exact Or.inr rfl

theorem run_data_crosses (fact : QMat → QMat × QMat) (r : Regression) :
    (Run fact r).1.Data.map (·.Crosses) = r.Data.map (·.Crosses) := by
  cases hi : r.initialised
  · simp [run_not_init fact r hi]
  · by_cases hn : r.Data.length < numVars r + 1
    · simp [run_too_many fact r hi hn]
    · simp [run_success_eq fact r hi hn, calcR2, calcVariance, calcPredicted, List.map_map]

theorem train_data (r : Regression) (d : List DataPoint) :
    (Train r d).Data = r.Data ++ d := by
  unfold Train
  dsimp only
  split <;> rfl

theorem reach_inv (r : Regression) (h : Reachable r) :
    (r.initialised = true ↔ 2 < r.Data.length) ∧ (r.Ready = true → r.initialised = true) := by
  induction h with
  | empty => simp [Regression.empty]
  | train r d hr ih =>
    unfold Train
    dsimp only
    split
    · next hlen =>
      constructor
      · simpa using hlen
      · intro _; rfl
    · next hlen =>
      constructor
      · constructor
        · intro hinit
          exact absurd (List.length_append _ _ ▸ Nat.lt_of_lt_of_le (ih.1.mp hinit)
            (Nat.le_add_right _ _)) hlen
        · intro hlt
          exact absurd hlt hlen
      · exact ih.2
  | cross r c hr ih => simpa [AddCross] using ih
  | run r fact hr ih =>
    refine ⟨?_, ?_⟩
    · rw [run_fst_init, run_fst_data_length]
      exact ih.1
    · intro hready
      rw [run_fst_init]
      rcases run_fst_ready fact r hready with h1 | h2
      · exact ih.2 h1
      · exact h2

theorem Predict_congr (r s : Regression) (v : List ℚ) (h1 : r.Ready = s.Ready)
    (h2 : r.crosses = s.crosses) (h3 : r.coeff = s.coeff) : Predict r v = Predict s v := by
  unfold Predict Coeff
  rw [h1, h2, h3]

theorem predict_ready (r : Regression) (vars : List ℚ) (h : r.Ready = true) :
    Predict r vars =
      (Coeff r 0 + ((extendCode r.crosses vars).enum.map
        (fun jv => Coeff r ((jv.1 : ℤ) + 1) * jv.2)).sum, none) := by
  unfold Predict
  rw [h]
  simp [foldl_add]

theorem coeffOf_length (c : List ℚ) : (coeffOf c).length = c.length := by
  simp [coeffOf]

theorem mapFind_enumFrom_ge (c : List ℚ) (i : ℕ) :
    ∀ k : ℕ, k + c.length ≤ i →
      ((c.enumFrom k).map (fun p => ((p.1 : ℤ), p.2))).find? (fun p => p.1 == (i : ℤ)) = none := by
  induction c with
  | nil => intro k _; rfl
  | cons x xs ih =>
    intro k hk
    simp only [List.length_cons] at hk
    have hki : (k : ℤ) ≠ (i : ℤ) := by exact_mod_cast (by omega : k ≠ i)
    have hne : ((k : ℤ) == (i : ℤ)) = false := beq_eq_false_iff_ne.mpr hki
    simp only [List.enumFrom, List.map, List.find?, hne]
    exact ih (k + 1) (by omega)

theorem mapFind_coeffOf_ge (c : List ℚ) (i : ℕ) (h : c.length ≤ i) :
    mapFind (coeffOf c) (i : ℤ) = 0 := by
  unfold mapFind coeffOf
  rw [show c.enum = c.enumFrom 0 from rfl]
  rw [mapFind_enumFrom_ge c i 0 (by omega)]
  rfl

theorem calcVariance_spec (s : Regression) :
    (calcVariance s).VarianceObserved = popVariance (s.Data.map (·.Observed)) ∧
    (calcVariance s).VariancePredicted = popVariance (s.Data.map (·.Predicted)) := by
  unfold calcVariance popVariance
  constructor
  · simp [foldl_add, List.map_map, Function.comp_def]
  · simp [foldl_add, List.map_map, Function.comp_def]

theorem getD_map_lt {α β : Type} (l : List α) (f : α → β) (dα : α) (dβ : β) (i : ℕ)
    (h : i < l.length) : (l.map f).getD i dβ = f (l.getD i dα) := by
  rw [List.getD_eq_getElem _ _ (by simpa using h), List.getD_eq_getElem _ _ h, List.getElem_map]

theorem collectOthers_eq (k : ℕ) :
    ∀ (l : List ℚ) (i : ℕ),
      collectOthers k i l =
        if k < i then l else l.take (k - i) ++ l.drop (k - i + 1) := by
  intro l
  induction l with
  | nil => intro i; simp [collectOthers]
  | cons c rest ih =>
    intro i
    unfold collectOthers
    by_cases hik : i = k
    · subst hik
      rw [if_pos rfl, ih (i + 1), if_pos (by omega)]
      simp
    · rw [if_neg hik, ih (i + 1)]
      by_cases hki : k < i
      · rw [if_pos (by omega), if_pos hki]
      · rw [if_neg (by omega), if_neg hki]
        have h1 : k - i = (k - (i + 1)) + 1 := by omega
        rw [h1]
        simp

theorem collectOthers_zero (k : ℕ) (l : List ℚ) :
    collectOthers k 0 l = l.take k ++ l.drop (k + 1) := by
  rw [collectOthers_eq k l 0, if_neg (by omega)]
  simp

theorem post_fit (t : Regression) (i : ℕ)
    (hi : i < (calcR2 (calcVariance (calcPredicted t))).Data.length) :
    (((calcR2 (calcVariance (calcPredicted t))).Data.getD i zeroPoint).Predicted
        = (Predict (calcR2 (calcVariance (calcPredicted t)))
            (((calcR2 (calcVariance (calcPredicted t))).Data.getD i zeroPoint).Variables)).1
      ∧ ((calcR2 (calcVariance (calcPredicted t))).Data.getD i zeroPoint).Error
          = ((calcR2 (calcVariance (calcPredicted t))).Data.getD i zeroPoint).Predicted
            - ((calcR2 (calcVariance (calcPredicted t))).Data.getD i zeroPoint).Observed)
    ∧ (calcR2 (calcVariance (calcPredicted t))).VarianceObserved
        = popVariance ((calcR2 (calcVariance (calcPredicted t))).Data.map (·.Observed))
    ∧ (calcR2 (calcVariance (calcPredicted t))).VariancePredicted
        = popVariance ((calcR2 (calcVariance (calcPredicted t))).Data.map (·.Predicted))
    ∧ (calcR2 (calcVariance (calcPredicted t))).R2
        = (calcR2 (calcVariance (calcPredicted t))).VariancePredicted
          / (calcR2 (calcVariance (calcPredicted t))).VarianceObserved := by
  have hi' : i < t.Data.length := by simpa [calcR2, calcVariance, calcPredicted] using hi
  have hD : (calcR2 (calcVariance (calcPredicted t))).Data.getD i zeroPoint
      = { t.Data.getD i zeroPoint with
          Predicted := (Predict t (t.Data.getD i zeroPoint).Variables).1,
          Error := (Predict t (t.Data.getD i zeroPoint).Variables).1
            - (t.Data.getD i zeroPoint).Observed } := by
    show ((calcPredicted t).Data).getD i zeroPoint = _
    rw [calcPredicted_Data, getD_map_lt t.Data _ zeroPoint zeroPoint i hi']
  refine ⟨⟨?_, ?_⟩, ?_, ?_, ?_⟩
  · rw [hD]
    rfl
  · rw [hD]
  · exact (calcVariance_spec (calcPredicted t)).1
  · exact (calcVariance_spec (calcPredicted t)).2
  · rfl

/-- Claim C1 (code bug exhibit): after a successful Run on a store with one
registered cross, every stored observation's Crosses sequence is STILL empty —
cross application mutates a discarded copy, never the stored observation — and
in general Run never changes any stored observation's Crosses field. The claim
says the stored crosses are populated with the cross outputs. -/
theorem C1_crosses_never_persisted :
    ((Run fact0 rC1).2 = none
      ∧ rC1.crosses.length = 1
      ∧ (Run fact0 rC1).1.Data.map (·.Crosses) = ([[], [], []] : List (List ℚ)))
    ∧ ∀ (fact : QMat → QMat × QMat) (r : Regression),
        (Run fact r).1.Data.map (·.Crosses) = r.Data.map (·.Crosses) :=
  ⟨⟨by decide, by decide, by decide⟩, run_data_crosses⟩

/-- Claim C2 (code bug exhibit): a successful fit over three observations with
v = 1 raw variable and one registered arity-1 cross (so the claim's
1 + v + k = 3) yields only 2 coefficients, because numOfvars counts the stored
Crosses of the first observation, which applyCrosses never populates. -/
theorem C2_coeff_count_ignores_crosses :
    (Run fact0 rC2).2 = none
    ∧ rC2.crosses.length = 1
    ∧ (rC2.Data.map (·.Variables.length)) = [1, 1, 1]
    ∧ (GetCoeffs (Run fact0 rC2).1).length = 2
    ∧ (2 : ℕ) ≠ 1 + 1 + 1 :=
  ⟨by decide, by decide, by decide, by decide, by decide⟩

/-- Claim C3 (counterexample): on a store of 3 observations with 3 variables,
Run fails with the too-many-variables error, no fit has ever succeeded, and yet
Predict on the empty vector returns a number, not the model-not-fit error —
because Run sets Ready before the underdetermined check. -/
theorem C3_counterexample :
    (Run fact0 rC3).2 = some Err.ErrTooManyVars
    ∧ (Predict (Run fact0 rC3).1 []).2 = none
    ∧ (Predict (Run fact0 rC3).1 []).2 ≠ some Err.ErrRegressionRun :=
  ⟨by decide, by decide, by decide⟩

/-- Claim C3 (amended): Predict fails with the model-not-fit error exactly when
the Ready flag is false; Ready is set by any Run call that passes the
insufficient-data check, even one that then fails the underdetermined check. -/
theorem C3_amended_thm (r : Regression) (vars : List ℚ) :
    (Predict r vars).2 = some Err.ErrRegressionRun ↔ r.Ready = false := by
  cases hR : r.Ready <;> simp [Predict, hR]

/-- Claim C4 (code bug exhibit): for four observations with one raw variable
and one stored cross value each, the design matrix rows are [1, cross, 0] —
the cross is written at column len(Variables)+j, overwriting the raw-variable
column, and the final column stays 0 — instead of the claimed [1, variable,
cross]; the fit then proceeds on this matrix. -/
theorem C4_cross_columns_shifted :
    designMatrix rC4 = ([[1, 9, 0], [1, 10, 0], [1, 11, 0], [1, 12, 0]] : QMat)
    ∧ designMatrix rC4 ≠ ([[1, 7, 9], [1, 8, 10], [1, 9, 11], [1, 10, 12]] : QMat)
    ∧ (Run fact0 rC4).2 = none :=
  ⟨by decide, by decide, by decide⟩

/-- Claim C5 (counterexample): two configurations where the observation count
is below the claim's bound (variables + registered-cross outputs + 1) but Run
does NOT report the too-many-variables error: with 2 observations of 5
variables it reports the insufficient-data error instead, and with 3
one-variable observations and 3 registered crosses it succeeds, because
registered crosses are never counted. -/
theorem C5_counterexample :
    (rC5a.Data.length < (rC5a.Data.headD zeroPoint).Variables.length + rC5a.crosses.length + 1
      ∧ (Run fact0 rC5a).2 = some Err.ErrNotEnoughData
      ∧ (Run fact0 rC5a).2 ≠ some Err.ErrTooManyVars)
    ∧ (rC5b.Data.length < (rC5b.Data.headD zeroPoint).Variables.length + rC5b.crosses.length + 1
      ∧ (Run fact0 rC5b).2 = none
      ∧ (Run fact0 rC5b).2 ≠ some Err.ErrTooManyVars) :=
  ⟨⟨by decide, by decide, by decide⟩, ⟨by decide, by decide, by decide⟩⟩

/-- Claim C5 (amended): Run reports the too-many-variables error EXACTLY when
the store is initialised (more than 2 observations trained) and its observation
count is below the first stored observation's variable count plus stored-cross
count plus 1 — an if-and-only-if; uninitialised stores get the
insufficient-data error first. -/
theorem C5_amended_thm :
    (∀ (fact : QMat → QMat × QMat) (r : Regression),
      (Run fact r).2 = some Err.ErrTooManyVars ↔
        (r.initialised = true ∧ r.Data.length < numVars r + 1))
    ∧ (∀ (fact : QMat → QMat × QMat) (r : Regression), r.initialised = false →
      (Run fact r).2 = some Err.ErrNotEnoughData) := by
  constructor
  · intro fact r
    cases hi : r.initialised
    · simp [run_not_init fact r hi]
    · by_cases hn : r.Data.length < numVars r + 1
      · simp [run_too_many fact r hi hn, hn]
      · simp [run_success_eq fact r hi hn, hn]
  · intro fact r hi
    rw [run_not_init fact r hi]

/-- Witness for the amended claim C5 at concrete stores: 3 observations of 3
variables trip the underdetermined error, and the empty store trips the
insufficient-data error. -/
theorem C5_amended_witness :
    (Run fact0 rW5).2 = some Err.ErrTooManyVars
    ∧ (Run fact0 Regression.empty).2 = some Err.ErrNotEnoughData :=
  ⟨(C5_amended_thm.1 fact0 rW5).mpr (by decide),
   C5_amended_thm.2 fact0 Regression.empty (by decide)⟩

/-- Claim C6 (counterexample): on a ready model whose second cross sums its
whole input vector, Predict applies that cross to the vector already extended
by the first cross (value 6), while the claim's formula applies every cross to
the original input vector (value 2). -/
theorem C6_counterexample :
    (Predict rC6 [2]).1 = 6 ∧ predictClaim rC6 [2] = 2 ∧ ((6 : ℚ) ≠ 2) := by
  have h1 : Coeff rC6 1 = 0 := by decide
  have h2 : Coeff rC6 2 = 0 := by decide
  have h3 : Coeff rC6 3 = 1 := by decide
  have h0 : Coeff rC6 0 = 0 := by decide
  have hext : extendCode rC6.crosses [2] = [2, 4, 6] := by
    norm_num [extendCode, rC6, sqCross, sumAll]
  have hspec : extendSpec rC6.crosses [2] = [2, 4, 2] := by
    norm_num [extendSpec, rC6, sqCross, sumAll]
  refine ⟨?_, ?_, by norm_num⟩
  · rw [predict_ready rC6 [2] rfl]
    rw [hext]
    simp only [List.enum, List.enumFrom, List.map, List.sum_cons, List.sum_nil]
    norm_num [h0, h1, h2, h3]
  · unfold predictClaim
    rw [hspec]
    simp only [List.enum, List.enumFrom, List.map, List.sum_cons, List.sum_nil]
    norm_num [h0, h1, h2, h3]

/-- Claim C6 (amended): when the model is ready, Predict returns the bias plus
the coefficient-weighted sum over the feature vector built by the ACCUMULATING
cross loop (each cross sees the input extended by earlier cross outputs), and
after a successful fit every coefficient lookup at an index at or beyond the
fitted coefficient count yields zero. -/
theorem C6_amended_thm :
    (∀ (r : Regression) (vars : List ℚ), r.Ready = true →
      Predict r vars = (Coeff r 0 + ((extendCode r.crosses vars).enum.map
        (fun jv => Coeff r ((jv.1 : ℤ) + 1) * jv.2)).sum, none))
    ∧ (∀ (fact : QMat → QMat × QMat) (r : Regression) (i : ℕ),
        (Run fact r).2 = none → (Run fact r).1.coeff.length ≤ i →
        Coeff (Run fact r).1 ((i : ℕ) : ℤ) = 0) := by
  constructor
  · intro r vars h
    exact predict_ready r vars h
  · intro fact r i h hlen
    cases hb : r.initialised with
    | false =>
      rw [run_not_init fact r hb] at h
      exact absurd h (by simp)
    | true =>
      by_cases hn : r.Data.length < numVars r + 1
      · rw [run_too_many fact r hb hn] at h
        exact absurd h (by simp)
      · have h1 : (Run fact r).1.coeff
            = coeffOf (solveQR fact (designMatrix r) (observedVec r) (numVars r + 1)) := by
          rw [run_success_eq fact r hb hn]
          rfl
        rw [h1] at hlen
        unfold Coeff
        rw [h1]
        split
        · rfl
        · exact mapFind_coeffOf_ge _ i (by rw [coeffOf_length] at hlen; exact hlen)

/-- Witness for the amended claim C6: a ready coefficient-free model predicts
0 for input [5], and after a successful fit of a 2-coefficient model the
lookup at index 5 is zero. -/
theorem C6_amended_witness :
    Predict rW6 [5] = (0, none) ∧ Coeff (Run fact0 rW62).1 ((5 : ℕ) : ℤ) = 0 :=
  ⟨(C6_amended_thm.1 rW6 [5] rfl).trans (by simp [Coeff, extendCode, rW6, Regression.empty]),
   C6_amended_thm.2 fact0 rW62 5 (by decide) (by decide)⟩

/-- Claim C7: after a successful fit, each stored observation's Predicted
equals Predict on its Variables, its Error is Predicted minus Observed, the
two variances are the population variances (average squared deviation from the
mean) of the observed and predicted values, and R2 is their ratio. -/
theorem C7_statistics (fact : QMat → QMat × QMat) (r : Regression) (i : ℕ)
    (h : (Run fact r).2 = none) (hi : i < (Run fact r).1.Data.length) :
    (((Run fact r).1.Data.getD i zeroPoint).Predicted
        = (Predict (Run fact r).1 (((Run fact r).1.Data.getD i zeroPoint).Variables)).1
      ∧ ((Run fact r).1.Data.getD i zeroPoint).Error
          = ((Run fact r).1.Data.getD i zeroPoint).Predicted
            - ((Run fact r).1.Data.getD i zeroPoint).Observed)
    ∧ (Run fact r).1.VarianceObserved = popVariance ((Run fact r).1.Data.map (·.Observed))
    ∧ (Run fact r).1.VariancePredicted = popVariance ((Run fact r).1.Data.map (·.Predicted))
    ∧ (Run fact r).1.R2 = (Run fact r).1.VariancePredicted / (Run fact r).1.VarianceObserved := by
  cases hb : r.initialised with
  | false =>
    rw [run_not_init fact r hb] at h
    exact absurd h (by simp)
  | true =>
    by_cases hn : r.Data.length < numVars r + 1
    · rw [run_too_many fact r hb hn] at h
      exact absurd h (by simp)
    · have h1 : (Run fact r).1 = calcR2 (calcVariance (calcPredicted
          { r with Ready := true,
                   coeff := coeffOf (solveQR fact (designMatrix r) (observedVec r) (numVars r + 1)) })) := by
        rw [run_success_eq fact r hb hn]
      rw [h1] at hi ⊢
      exact post_fit _ i hi

/-- Witness for claim C7 at a concrete successful three-observation fit,
observation index 0. -/
theorem C7_statistics_witness :
    (((Run fact0 rW7).1.Data.getD 0 zeroPoint).Predicted
        = (Predict (Run fact0 rW7).1 (((Run fact0 rW7).1.Data.getD 0 zeroPoint).Variables)).1
      ∧ ((Run fact0 rW7).1.Data.getD 0 zeroPoint).Error
          = ((Run fact0 rW7).1.Data.getD 0 zeroPoint).Predicted
            - ((Run fact0 rW7).1.Data.getD 0 zeroPoint).Observed)
    ∧ (Run fact0 rW7).1.VarianceObserved = popVariance ((Run fact0 rW7).1.Data.map (·.Observed))
    ∧ (Run fact0 rW7).1.VariancePredicted = popVariance ((Run fact0 rW7).1.Data.map (·.Predicted))
    ∧ (Run fact0 rW7).1.R2 = (Run fact0 rW7).1.VariancePredicted / (Run fact0 rW7).1.VarianceObserved :=
  C7_statistics fact0 rW7 0 (by decide) (by decide)

/-- Claim C8: on every API-reachable store, the store is fit-eligible
(initialised) exactly when it holds more than 2 observations, Run reports the
insufficient-data error exactly when fewer than 3 observations have ever been
trained, and Train appends records preserving insertion order. -/
theorem C8_insufficient_data_gate (r : Regression) (fact : QMat → QMat × QMat)
    (d : List DataPoint) (h : Reachable r) :
    (r.initialised = true ↔ 2 < r.Data.length)
    ∧ ((Run fact r).2 = some Err.ErrNotEnoughData ↔ r.Data.length < 3)
    ∧ (Train r d).Data = r.Data ++ d := by
  refine ⟨(reach_inv r h).1, ?_, train_data r d⟩
  rw [run_snd_cases]
  have h2 := (reach_inv r h).1
  constructor
  · intro hf
    have h3 : ¬ 2 < r.Data.length := fun hlt => by simp [h2.mpr hlt] at hf
    omega
  · intro hlt
    cases hi : r.initialised
    · rfl
    · exact absurd (h2.mp hi) (by omega)

/-- Witness for claim C8 at the reachable store holding three trained zero
observations. -/
theorem C8_witness :
    (rW8.initialised = true ↔ 2 < rW8.Data.length)
    ∧ ((Run fact0 rW8).2 = some Err.ErrNotEnoughData ↔ rW8.Data.length < 3)
    ∧ (Train rW8 [zeroPoint]).Data = rW8.Data ++ [zeroPoint] :=
  C8_insufficient_data_gate rW8 fact0 [zeroPoint]
    (Reachable.train Regression.empty zp3 Reachable.empty)

/-- Claim C9: for any row-major table with equal-length rows and any observed
column index inside the rows (first, last or interior), MakeDataPoints yields
one record per row, in order, whose Observed is the row entry at that index and
whose Variables are the rest of the row in original relative order. -/
theorem C9_make_data_points (a : QMat) (w obsIndex : ℕ)
    (hw : ∀ row ∈ a, row.length = w) (hidx : obsIndex < w) :
    MakeDataPoints a obsIndex =
      a.map (fun row => mkDP (row.getD obsIndex 0) (row.take obsIndex ++ row.drop (obsIndex + 1))) := by
  unfold MakeDataPoints
  split
  · next hguard =>
    simp [perverseMakeDataPoints, collectOthers_zero]
  · next hguard =>
    split
    · next h0 =>
      subst h0
      refine List.map_congr_left ?_
      intro row hrow
      cases row <;> rfl
    · next h0 =>
      cases a with
      | nil => rfl
      | cons r0 rest =>
        push_neg at hguard
        have hobs : obsIndex = ((r0 :: rest).headD []).length - 1 := hguard h0
        have hr0 : r0.length = w := hw r0 (by simp)
        dsimp only [List.headD] at hobs ⊢
        refine List.map_congr_left ?_
        intro row hrow
        have hrl : row.length = w := hw row hrow
        have hob : obsIndex = w - 1 := by rw [hobs, hr0]
        have hob1 : obsIndex + 1 = w := by omega
        rw [hr0, ← hob, hob1, ← hrl, List.drop_length, List.append_nil]

/-- Witness for claim C9: reshaping a concrete 2x3 table around its middle
column. -/
theorem C9_witness :
    MakeDataPoints aW9 1 = [mkDP 2 [1, 3], mkDP 5 [4, 6]] :=
  (C9_make_data_points aW9 3 1 (by decide) (by decide)).trans (by decide)

/-- Claim C10: when Run on a reachable store fails with the insufficient-data
error, the returned state is exactly the input state (so Ready, crosses,
coefficients, variances and R2 are untouched), and the Ready flag was and
stays false. -/
theorem C10_failed_run_no_mutation (fact : QMat → QMat × QMat) (r : Regression)
    (h : Reachable r) (he : (Run fact r).2 = some Err.ErrNotEnoughData) :
    (Run fact r).1 = r ∧ r.Ready = false := by
  have hinit : r.initialised = false := (run_snd_cases fact r).mp he
  constructor
  · rw [run_not_init fact r hinit]
  · cases hR : r.Ready
    · rfl
    · exact absurd ((reach_inv r h).2 hR) (by simp [hinit])

/-- Witness for claim C10 at the empty store. -/
theorem C10_witness :
    (Run fact0 Regression.empty).1 = Regression.empty ∧ Regression.empty.Ready = false :=
  C10_failed_run_no_mutation fact0 Regression.empty Reachable.empty (by decide)
